import Mathlib

/-!
Verification development for the Deezer-scanner repository.

The definitions below are shallow embeddings of the JavaScript source:
the emoji music player (DetectionState, MusicPlayer, AppController) and
the AR audio arbiter (playAudioForTarget, updateAudioPlayback,
target-controller, toggleMute).  JS strings are modelled as Lean
strings, JS numbers used as counters as Nat, array indices as Int where
the source stores -1, JS objects used as string-keyed tables as
association lists, and the JS Set (which iterates in insertion order)
as a duplicate-free list.
-/

namespace DeezerScanner

/-! ### Combo key resolver -/

/-- JS Array.sort applied to a two-element array of strings: the pair in
nondecreasing order.  Only the symmetry of this operation matters for the
properties below, so the difference between UTF-16 ordering and code-point
ordering is immaterial. -/
def sort2 (a b : String) : String × String :=
  if a ≤ b then (a, b) else (b, a)

/-- Embedding of DetectionState.getComboKey: the two slot values are
filtered for null, then: zero symbols give the reserved DEFAULT key, one
symbol is joined with the em-dash sentinel, two symbols are sorted and
joined with a bar. -/
def getComboKey (emojiA emojiB : Option String) : String :=
  match emojiA, emojiB with
  | none, none => "DEFAULT"
  | some a, none => a ++ "|—"
  | none, some b => b ++ "|—"
  | some a, some b =>
    let p := sort2 a b
    p.1 ++ "|" ++ p.2

/-- JS truthiness filter used by AppController.getComboKeyFromEmojis
(filter e && e !== two-quote empty string): the empty string behaves like
null. -/
def truthy : Option String → Option String
  | some s => if s = "" then none else some s
  | none => none

/-- Embedding of AppController.getComboKeyFromEmojis: same case split as
DetectionState.getComboKey, but slots holding the empty string are
filtered out as well. -/
def getComboKeyFromEmojis (emojiA emojiB : Option String) : String :=
  getComboKey (truthy emojiA) (truthy emojiB)

/-! ### Temporal debouncer (DetectionState) -/

/-- CONFIG.SMOOTHING_FRAMES. -/
def SMOOTHING_FRAMES : Nat := 8

/-- Count currently recorded for a key in the counts object of
getStableValue (missing keys count as zero, as in counts[val] || 0). -/
def lookupCount : List (String × Nat) → String → Nat
  | [], _ => 0
  | (k, c) :: rest, v => if k = v then c else lookupCount rest v

/-- Store a count for a key in the counts object. -/
def setCount : List (String × Nat) → String → Nat → List (String × Nat)
  | [], v, c => [(v, c)]
  | (k, c0) :: rest, v, c =>
    if k = v then (v, c) :: rest else (k, c0) :: setCount rest v c

/-- One iteration of the arr.forEach loop in DetectionState.getStableValue.
The accumulator is (counts, maxCount, maxValue); null entries are skipped,
otherwise the count is bumped and the running maximum updated when the new
count strictly exceeds it. -/
def tallyStep (acc : List (String × Nat) × Nat × Option String)
    (val : Option String) : List (String × Nat) × Nat × Option String :=
  match val with
  | none => acc
  | some v =>
    let c := lookupCount acc.1 v + 1
    let counts := setCount acc.1 v c
    if acc.2.1 < c then (counts, c, some v) else (counts, acc.2.1, acc.2.2)

/-- Embedding of DetectionState.getStableValue.  The source compares
maxCount >= CONFIG.SMOOTHING_FRAMES * 0.6; the float value of 8 * 0.6 lies
strictly between 4 and 5, so for a whole-number count the comparison is
exactly 5 * maxCount >= 24. -/
def getStableValue (arr : List (Option String)) : Option String :=
  let r := arr.foldl tallyStep ([], 0, none)
  if 24 ≤ 5 * r.2.1 then r.2.2 else none

/-- One prediction as consumed by DetectionState.update. -/
structure Pred where
  label : String
  confidence : ℚ

/-- The mutable fields of DetectionState: the two stable slots, the two
smoothing buffers and the frame counter. -/
structure DetectionState where
  emojiA : Option String
  emojiB : Option String
  bufA : List (Option String)
  bufB : List (Option String)
  frameCount : Nat

/-- The state built by the DetectionState constructor / reset. -/
def DetectionState.start : DetectionState := ⟨none, none, [], [], 0⟩

/-- The pushed value predX?.label || null: a missing prediction or an
empty-string label becomes null. -/
def predLabel : Option Pred → Option String
  | some p => if p.label = "" then none else some p.label
  | none => none

/-- Embedding of DetectionState.update.  Pushes the top-two labels onto
the buffers, shifts when the buffers exceed SMOOTHING_FRAMES, and only
once the buffer holds at least SMOOTHING_FRAMES entries recomputes the
stable slots; returns the new state together with the stateChanged
boolean. -/
def DetectionState.update (s : DetectionState) (predictions : List Pred) :
    DetectionState × Bool :=
  let frameCount := s.frameCount + 1
  let labA := predLabel predictions[0]?
  let labB := predLabel predictions[1]?
  let bufA0 := s.bufA ++ [labA]
  let bufB0 := s.bufB ++ [labB]
  let bufA := if SMOOTHING_FRAMES < bufA0.length then bufA0.tail else bufA0
  let bufB := if SMOOTHING_FRAMES < bufA0.length then bufB0.tail else bufB0
  if SMOOTHING_FRAMES ≤ bufA.length then
    let stableA := getStableValue bufA
    let stableB := getStableValue bufB
    if stableA ≠ s.emojiA ∨ stableB ≠ s.emojiB then
      ({ emojiA := stableA, emojiB := stableB, bufA := bufA, bufB := bufB,
         frameCount := frameCount }, true)
    else
      ({ s with bufA := bufA, bufB := bufB, frameCount := frameCount }, false)
  else
    ({ s with bufA := bufA, bufB := bufB, frameCount := frameCount }, false)

/-- Feed a sequence of per-tick prediction lists through update, keeping
only the state (the detection loop reads the boolean separately). -/
def runUpdates (s : DetectionState) : List (List Pred) → DetectionState
  | [] => s
  | t :: ts => runUpdates (s.update t).1 ts

/-! ### Music player (MusicPlayer) -/

/-- A playlist entry of COMBO_PLAYLISTS. -/
structure Track where
  title : String
  artist : String
  src : String
deriving DecidableEq

/-- Commands the player issues to the underlying HTMLAudioElement. -/
inductive Cmd where
  | audioPause
  | audioPlay
  | setSrc (src : String)
deriving DecidableEq

/-- The mutable fields of MusicPlayer, plus the src attribute of its
audio element and the trace of commands issued to it (newest first). -/
structure PlayerState where
  currentPlaylist : List Track
  currentTrackIndex : Int
  currentCombo : Option String
  isPlaying : Bool
  audioSrc : Option String
  cmds : List Cmd
deriving DecidableEq

/-- The state built by the MusicPlayer constructor. -/
def PlayerState.start : PlayerState := ⟨[], -1, none, false, none, []⟩

/-- JS object property lookup on a string-keyed table. -/
def assoc {α : Type} : List (String × α) → String → Option α
  | [], _ => none
  | (k, v) :: rest, key => if k = key then some v else assoc rest key

/-- JS String.split with a single-character separator, on the list of
characters: split at every separator occurrence, keeping empty pieces. -/
def splitChar (c : Char) : List Char → List (List Char)
  | [] => [[]]
  | x :: xs =>
    let r := splitChar c xs
    if x = c then [] :: r
    else
      match r with
      | [] => [[x]]
      | h :: t => (x :: h) :: t

/-- JS comboKey.split(separator) for a one-character separator. -/
def jsSplit (s : String) (c : Char) : List String :=
  (splitChar c s.data).map String.mk

/-- The COMBO_PLAYLISTS table of the source, as an association list. -/
def COMBO_PLAYLISTS : List (String × List Track) :=
  [("😄|😈",
     [⟨"Track A", "Artist A", "./assets/audio/track-a.mp3"⟩,
      ⟨"Track B", "Artist B", "./assets/audio/track-b.mp3"⟩]),
   ("😈|😄", []),
   ("😄|—", [⟨"Happy Track 1", "Happy Artist", "./assets/audio/happy-1.mp3"⟩]),
   ("😈|—", [⟨"Devil Track 1", "Devil Artist", "./assets/audio/devil-1.mp3"⟩]),
   ("DEFAULT", [⟨"Default Track", "Default Artist", "./assets/audio/default.mp3"⟩])]

/-- The playlist lookup performed inside MusicPlayer.switchPlaylist:
exact key; if that property is absent and the key contains a bar, the
two-component reversed key; if still unresolved, or the found list is
empty, the DEFAULT entry (or the empty list when DEFAULT is absent). -/
def lookupPlaylist (table : List (String × List Track)) (comboKey : String) :
    List Track :=
  let found :=
    match assoc table comboKey with
    | some pl => some pl
    | none =>
      if comboKey.data.contains '|' then
        match jsSplit comboKey '|' with
        | [p0, p1] => assoc table (p1 ++ "|" ++ p0)
        | _ => none
      else none
  match found with
  | some pl => if pl.isEmpty then (assoc table "DEFAULT").getD [] else pl
  | none => (assoc table "DEFAULT").getD []

/-- Embedding of MusicPlayer.pause: pause the audio element and clear
isPlaying. -/
def MusicPlayer.pause (s : PlayerState) : PlayerState :=
  { s with isPlaying := false, cmds := Cmd.audioPause :: s.cmds }

/-- Embedding of MusicPlayer.play: a negative index or an empty playlist
is a no-op; otherwise the src attribute is set when it differs from the
current track, the audio element is started, and isPlaying is set (the
model takes the awaited audio.play() call to succeed). -/
def MusicPlayer.play (s : PlayerState) : PlayerState :=
  if s.currentTrackIndex < 0 ∨ s.currentPlaylist.isEmpty then s
  else
    match s.currentPlaylist[s.currentTrackIndex.toNat]? with
    | none => s
    | some track =>
      let s1 :=
        if s.audioSrc ≠ some track.src then
          { s with audioSrc := some track.src,
                   cmds := Cmd.setSrc track.src :: s.cmds }
        else s
      { s1 with isPlaying := true, cmds := Cmd.audioPlay :: s1.cmds }

/-- Embedding of MusicPlayer.next: on an empty playlist a no-op;
otherwise the index advances modulo the playlist length (JS % is the
truncating remainder), the track is loaded into the audio element, and
play is re-issued only when already playing. -/
def MusicPlayer.next (s : PlayerState) : PlayerState :=
  if s.currentPlaylist.isEmpty then s
  else
    let idx := (s.currentTrackIndex + 1).tmod (s.currentPlaylist.length : Int)
    let s1 := { s with currentTrackIndex := idx }
    match s1.currentPlaylist[idx.toNat]? with
    | none => s1
    | some track =>
      let s2 := { s1 with audioSrc := some track.src,
                          cmds := Cmd.setSrc track.src :: s1.cmds }
      if s2.isPlaying then MusicPlayer.play s2 else s2

/-- Embedding of MusicPlayer.switchPlaylist, with the COMBO_PLAYLISTS
table passed explicitly: a key equal to the current combo is a no-op;
otherwise the playlist is resolved, the combo and playlist are stored,
the index is reset to -1, and the first track of the new playlist is
loaded (after a pause when something was playing). -/
def MusicPlayer.switchPlaylist (table : List (String × List Track))
    (comboKey : String) (s : PlayerState) : PlayerState :=
  if some comboKey = s.currentCombo then s
  else
    let playlist := lookupPlaylist table comboKey
    let s1 := { s with currentPlaylist := playlist,
                       currentCombo := some comboKey,
                       currentTrackIndex := -1 }
    if s1.isPlaying then MusicPlayer.next (MusicPlayer.pause s1)
    else MusicPlayer.next s1

/-! ### Channel arbiter (app.js AR variant) -/

/-- The arbiter-relevant fields of the app.js state object.  The JS Set
detectedTargets iterates in insertion order, so it is modelled as a
duplicate-free list in insertion order. -/
structure ArState where
  detectedTargets : List Nat
  lastFoundIndex : Option Nat
  currentAudioIndex : Option Nat
  audioMuted : Bool
deriving DecidableEq

/-- The initial state object of app.js (audio starts muted). -/
def ArState.start : ArState := ⟨[], none, none, true⟩

/-- JS Set.add: append when absent, keep the order otherwise. -/
def jsSetAdd (l : List Nat) (i : Nat) : List Nat :=
  if i ∈ l then l else l ++ [i]

/-- JS Set.delete: remove the element, keeping the order of the rest. -/
def jsSetDelete (l : List Nat) (i : Nat) : List Nat := l.erase i

/-- Embedding of playAudioForTarget: muted is an early return before any
state is touched; a target index outside the twelve prepared audio
elements is also a no-op; otherwise the previous owner is stopped, the
new audio started, and currentAudioIndex reassigned (the source sets it
whether or not audio.play() succeeds). -/
def playAudioForTarget (targetIndex : Nat) (s : ArState) : ArState :=
  if s.audioMuted then s
  else if 12 ≤ targetIndex then s
  else { s with currentAudioIndex := some targetIndex }

/-- Embedding of stopAudioForTarget: clears currentAudioIndex only when
the stopped target is the current owner. -/
def stopAudioForTarget (targetIndex : Nat) (s : ArState) : ArState :=
  if s.currentAudioIndex = some targetIndex then
    { s with currentAudioIndex := none }
  else s

/-- Embedding of updateAudioPlayback, the arbitration pass: no targets
stops the owner; one target claims for it; several targets prefer the
last-found target when still detected, and otherwise fall back to the
first element of the Set in insertion order, which also becomes the new
lastFoundIndex. -/
def updateAudioPlayback (s : ArState) : ArState :=
  match s.detectedTargets with
  | [] =>
    match s.currentAudioIndex with
    | some i => stopAudioForTarget i s
    | none => s
  | [t] =>
    if s.currentAudioIndex = some t then s else playAudioForTarget t s
  | t :: _ :: _ =>
    match s.lastFoundIndex with
    | some lf =>
      if lf ∈ s.detectedTargets then
        if s.currentAudioIndex = some lf then s else playAudioForTarget lf s
      else
        { playAudioForTarget t s with lastFoundIndex := some t }
    | none => { playAudioForTarget t s with lastFoundIndex := some t }

/-- Embedding of target-controller onTargetFound: the isDetected guard
coincides with membership in detectedTargets; a fresh target is added,
becomes lastFoundIndex, and an arbitration pass runs. -/
def onTargetFound (targetIndex : Nat) (s : ArState) : ArState :=
  if targetIndex ∈ s.detectedTargets then s
  else
    updateAudioPlayback
      { s with detectedTargets := jsSetAdd s.detectedTargets targetIndex,
               lastFoundIndex := some targetIndex }

/-- Embedding of target-controller onTargetLost: a detected target is
removed and an arbitration pass runs. -/
def onTargetLost (targetIndex : Nat) (s : ArState) : ArState :=
  if targetIndex ∈ s.detectedTargets then
    updateAudioPlayback
      { s with detectedTargets := jsSetDelete s.detectedTargets targetIndex }
  else s

/-- Embedding of toggleMute: flip the flag; when now muted stop the
current owner, when now unmuted run an arbitration pass. -/
def toggleMute (s : ArState) : ArState :=
  let s1 := { s with audioMuted := !s.audioMuted }
  if s1.audioMuted then
    match s1.currentAudioIndex with
    | some i => stopAudioForTarget i s1
    | none => s1
  else updateAudioPlayback s1

/-- The discrete events the arbiter reacts to. -/
inductive Ev where
  | found (i : Nat)
  | lost (i : Nat)
  | mute
deriving DecidableEq

/-- Process one event. -/
def step (s : ArState) (e : Ev) : ArState :=
  match e with
  | .found i => onTargetFound i s
  | .lost i => onTargetLost i s
  | .mute => toggleMute s

/-- Process a sequence of events in arrival order. -/
def run (s : ArState) (evs : List Ev) : ArState := evs.foldl step s

/-! ### Theorems -/

/-- Sorting a two-element array does not depend on the argument order. -/
theorem sort2_comm (a b : String) : sort2 a b = sort2 b a := by
  unfold sort2
  rcases le_or_lt a b with h | h
  · rcases le_or_lt b a with h2 | h2
    · simp [le_antisymm h h2]
    · simp [h, not_le.mpr h2]
  · simp [not_le.mpr h, le_of_lt h]

/-- The combo key of DetectionState.getComboKey is symmetric in the two
slots. -/
theorem getComboKey_comm (a b : Option String) :
    getComboKey a b = getComboKey b a := by
  cases a <;> cases b <;> simp [getComboKey, sort2_comm]

/-- C1: the combo-key resolver is order-independent: for every pair of
slot values (symbol label or null), DetectionState.getComboKey gives the
same key on (a, b) as on (b, a), and the same holds for
AppController.getComboKeyFromEmojis. -/
theorem comboKey_order_independent :
    ∀ a b : Option String,
      getComboKey a b = getComboKey b a ∧
      getComboKeyFromEmojis a b = getComboKeyFromEmojis b a := by
  intro a b
  exact ⟨getComboKey_comm a b, getComboKey_comm (truthy a) (truthy b)⟩

/-- C2: with window size 8 and agreement ratio 0.6, for distinct non-null
labels X and Y the window [X,X,X,X,X,Y,Y,null] yields stable value X
(count 5 meets the 4.8 quorum) and [X,X,X,X,Y,Y,Y,null] yields null (no
count reaches 4.8). -/
theorem getStableValue_quorum (X Y : String) (hXY : X ≠ Y) :
    getStableValue
        [some X, some X, some X, some X, some X, some Y, some Y, none] =
      some X ∧
    getStableValue
        [some X, some X, some X, some X, some Y, some Y, some Y, none] =
      none := by
  have hYX : Y ≠ X := Ne.symm hXY
  constructor <;>
    simp [getStableValue, List.foldl_cons, List.foldl_nil, tallyStep,
      lookupCount, setCount, hXY, hYX]

/-- Witness for C2 at X = A, Y = B. -/
theorem getStableValue_quorum_witness :
    getStableValue
        [some "A", some "A", some "A", some "A", some "A", some "B", some "B",
         none] = some "A" ∧
    getStableValue
        [some "A", some "A", some "A", some "A", some "B", some "B", some "B",
         none] = none :=
  getStableValue_quorum "A" "B" (by decide)

/-- C8: from an empty Active Set with no owner (the unmuted initial
state), the events present(0), present(1), absent(1) produce the owner
sequence 0, 1, 0. -/
theorem owner_sequence_scenario :
    (toggleMute ArState.start).detectedTargets = [] ∧
    (toggleMute ArState.start).currentAudioIndex = none ∧
    (toggleMute ArState.start).audioMuted = false ∧
    (run (toggleMute ArState.start) [Ev.found 0]).currentAudioIndex =
      some 0 ∧
    (run (toggleMute ArState.start)
        [Ev.found 0, Ev.found 1]).currentAudioIndex = some 1 ∧
    (run (toggleMute ArState.start)
        [Ev.found 0, Ev.found 1, Ev.lost 1]).currentAudioIndex = some 0 := by
  decide

/-- C4 counterexample: with the symbols detected in the order 3, 1, 2
(audio unmuted), the Active Set is {1,2,3} (stored as [3,1,2]) and the
owner is 2; processing absent(2) hands the channel to 3 — the first
remaining element in insertion order — and not to the lowest remaining
identifier 1, refuting the claim for this insertion order. -/
theorem arbiter_fallback_counterexample :
    (run ArState.start
        [Ev.mute, Ev.found 3, Ev.found 1, Ev.found 2]).detectedTargets =
      [3, 1, 2] ∧
    (run ArState.start
        [Ev.mute, Ev.found 3, Ev.found 1, Ev.found 2]).currentAudioIndex =
      some 2 ∧
    (run ArState.start
        [Ev.mute, Ev.found 3, Ev.found 1, Ev.found 2]).audioMuted = false ∧
    (run ArState.start
        [Ev.mute, Ev.found 3, Ev.found 1, Ev.found 2,
         Ev.lost 2]).currentAudioIndex = some 3 ∧
    some 3 ≠ (some 1 : Option Nat) := by
  decide

/-- C4 amended: when the owner becomes absent and the Active Set stays
non-empty, ownership transfers to the first remaining member in the Set
insertion order (so the channel does not go silent), not necessarily to
the lowest identifier.  With Active Set {1,2,3} and owner 2 this yields
owner 1 for the insertion order 1,3,2 and owner 3 for the insertion
order 3,1,2; in both cases the new owner is the head of the remaining
insertion-ordered Set. -/
theorem arbiter_fallback_insertion_order :
    ((run ArState.start
         [Ev.mute, Ev.found 1, Ev.found 3, Ev.found 2]).detectedTargets =
       [1, 3, 2] ∧
     (run ArState.start
         [Ev.mute, Ev.found 1, Ev.found 3, Ev.found 2]).currentAudioIndex =
       some 2 ∧
     (run ArState.start
         [Ev.mute, Ev.found 1, Ev.found 3, Ev.found 2,
          Ev.lost 2]).currentAudioIndex =
       (run ArState.start
           [Ev.mute, Ev.found 1, Ev.found 3, Ev.found 2,
            Ev.lost 2]).detectedTargets.head? ∧
     (run ArState.start
         [Ev.mute, Ev.found 1, Ev.found 3, Ev.found 2,
          Ev.lost 2]).currentAudioIndex = some 1) ∧
    ((run ArState.start
         [Ev.mute, Ev.found 3, Ev.found 1, Ev.found 2]).detectedTargets =
       [3, 1, 2] ∧
     (run ArState.start
         [Ev.mute, Ev.found 3, Ev.found 1, Ev.found 2]).currentAudioIndex =
       some 2 ∧
     (run ArState.start
         [Ev.mute, Ev.found 3, Ev.found 1, Ev.found 2,
          Ev.lost 2]).currentAudioIndex =
       (run ArState.start
           [Ev.mute, Ev.found 3, Ev.found 1, Ev.found 2,
            Ev.lost 2]).detectedTargets.head? ∧
     (run ArState.start
         [Ev.mute, Ev.found 3, Ev.found 1, Ev.found 2,
          Ev.lost 2]).currentAudioIndex = some 3) := by
  decide

/-- Number of occurrences of a (non-null) label in a window. -/
def countVal (v : String) : List (Option String) → Nat
  | [] => 0
  | x :: xs => (if x = some v then 1 else 0) + countVal v xs

/-- Two distinct labels cannot together occur more often than the length
of the window. -/
theorem countVal_pair_le_length (a b : String) (hab : a ≠ b) :
    ∀ l : List (Option String), countVal a l + countVal b l ≤ l.length := by
  intro l
  induction l with
  | nil => simp [countVal]
  | cons x xs ih =>
    have hx : ¬(x = some a ∧ x = some b) := by
      rintro ⟨h1, h2⟩
      exact hab (Option.some.inj (h1.symm.trans h2))
    simp only [countVal, List.length_cons]
    rcases eq_or_ne x (some a) with hxa | hxa <;>
      rcases eq_or_ne x (some b) with hxb | hxb
    · exact absurd ⟨hxa, hxb⟩ hx
    · rw [if_pos hxa, if_neg hxb]; omega
    · rw [if_neg hxa, if_pos hxb]; omega
    · rw [if_neg hxa, if_neg hxb]; omega

/-- A ten-entry window in which A and B are tied at five occurrences
each and both meet the 4.8 quorum: B is encountered first in scan order,
but A is the first value to attain every running-maximum count from two
upward, so the forEach loop of getStableValue leaves A as maxValue. -/
def tieArr : List (Option String) :=
  [some "B", some "A", some "A", some "B", some "A", some "B", some "A",
   some "B", some "A", some "B"]

/-- C6 counterexample: in the window tieArr the distinct values A and B
are tied at count 5, the count meets the quorum, and B is encountered
first when scanning from oldest to newest — yet getStableValue returns
A, not B, refuting first-seen-wins tie-breaking. -/
theorem tie_first_seen_counterexample :
    ("A" : String) ≠ "B" ∧
    countVal "A" tieArr = 5 ∧
    countVal "B" tieArr = 5 ∧
    24 ≤ 5 * countVal "A" tieArr ∧
    tieArr.indexOf (some "B") < tieArr.indexOf (some "A") ∧
    getStableValue tieArr = some "A" ∧
    getStableValue tieArr ≠ some "B" := by
  decide

/-- C6 amended: in a window of the configured size (at most 8 entries)
two distinct values can never be tied at a quorum-meeting count, so the
claimed situation cannot arise there; on longer inputs the tie resolves
deterministically, but to the value that first attains the maximum
occurrence count during the scan rather than to the value encountered
first — in tieArr the first-encountered tied value is B while
getStableValue returns A. -/
theorem tie_breaking_amended :
    (∀ (arr : List (Option String)) (X Y : String), arr.length ≤ 8 →
        ¬(X ≠ Y ∧ countVal X arr = countVal Y arr ∧
          24 ≤ 5 * countVal X arr)) ∧
    (getStableValue tieArr = some "A" ∧
     countVal "A" tieArr = countVal "B" tieArr ∧
     24 ≤ 5 * countVal "A" tieArr ∧
     tieArr.indexOf (some "B") < tieArr.indexOf (some "A")) := by
  constructor
  · rintro arr X Y hlen ⟨hXY, hcnt, hq⟩
    have h := countVal_pair_le_length X Y hXY arr
    omega
  · decide

/-- Witness for the amended C6 at the empty window. -/
theorem tie_breaking_amended_witness :
    ¬(("A" : String) ≠ "B" ∧
      countVal "A" ([] : List (Option String)) =
        countVal "B" ([] : List (Option String)) ∧
      24 ≤ 5 * countVal "A" ([] : List (Option String))) :=
  tie_breaking_amended.1 [] "A" "B" (by decide)

/-- One update on a buffer that stays below capacity even after the
push: the stable slots are untouched and the buffer grows by one. -/
theorem update_below_capacity (s : DetectionState) (p : List Pred)
    (h : s.bufA.length + 1 < 8) :
    (s.update p).1.emojiA = s.emojiA ∧ (s.update p).1.emojiB = s.emojiB ∧
    (s.update p).1.bufA.length = s.bufA.length + 1 := by
  have h1 : ¬(8 < s.bufA.length + 1) := by omega
  have h2 : ¬(8 ≤ s.bufA.length + 1) := by omega
  simp [DetectionState.update, SMOOTHING_FRAMES, h1, h2]

/-- Runs that keep the slot-A buffer below capacity never change the
stable slots. -/
theorem runUpdates_below_capacity :
    ∀ (ticks : List (List Pred)) (s : DetectionState),
      s.bufA.length + ticks.length < 8 →
      (runUpdates s ticks).emojiA = s.emojiA ∧
      (runUpdates s ticks).emojiB = s.emojiB := by
  intro ticks
  induction ticks with
  | nil => exact fun s _ => ⟨rfl, rfl⟩
  | cons t ts ih =>
    intro s h
    have hlen : s.bufA.length + 1 < 8 := by
      simp only [List.length_cons] at h; omega
    have hstep := update_below_capacity s t hlen
    have hrec := ih (s.update t).1 (by
      rw [hstep.2.2]; simp only [List.length_cons] at h; omega)
    have hrun : runUpdates s (t :: ts) = runUpdates (s.update t).1 ts := rfl
    rw [hrun, hrec.1, hrec.2, hstep.1, hstep.2.1]
    exact ⟨rfl, rfl⟩

/-- C7 counterexample: seven consecutive ticks all labelled Happy supply
at least five agreeing observations but fewer than eight in total, and
the debouncer still reports no stable value for the slot, refuting the
claim that a stable value is declared before the window fills. -/
theorem early_declaration_counterexample :
    (runUpdates DetectionState.start
        (List.replicate 7 [⟨"Happy", 1⟩])).emojiA = none ∧
    (runUpdates DetectionState.start
        (List.replicate 7 [⟨"Happy", 1⟩])).emojiA ≠ some "Happy" := by
  decide

/-- C7 amended: update evaluates stability only once the window holds
the configured SMOOTHING_FRAMES = 8 observations, so no stable value is
ever declared while fewer than eight observations exist — even when at
least five of them agree; once the window is full, eight agreeing
observations of a non-empty label X yield stable value X. -/
theorem stable_requires_full_window :
    (∀ ticks : List (List Pred), ticks.length < 8 →
        (runUpdates DetectionState.start ticks).emojiA = none ∧
        (runUpdates DetectionState.start ticks).emojiB = none) ∧
    (∀ (X : String) (c : ℚ), X ≠ "" →
        (runUpdates DetectionState.start
            (List.replicate 8 [⟨X, c⟩])).emojiA = some X) := by
  constructor
  · intro ticks h
    have hlen : DetectionState.start.bufA.length + ticks.length < 8 := by
      simpa [DetectionState.start] using h
    have := runUpdates_below_capacity ticks DetectionState.start hlen
    simpa [DetectionState.start] using this
  · intro X c hX
    have hrep : List.replicate 8 [(⟨X, c⟩ : Pred)] =
        [[⟨X, c⟩], [⟨X, c⟩], [⟨X, c⟩], [⟨X, c⟩], [⟨X, c⟩], [⟨X, c⟩],
         [⟨X, c⟩], [⟨X, c⟩]] := rfl
    rw [hrep]
    simp [runUpdates, DetectionState.update, SMOOTHING_FRAMES, predLabel, hX,
      DetectionState.start, getStableValue, List.foldl_cons, List.foldl_nil,
      tallyStep, lookupCount, setCount]

/-- Witness for the amended C7: the empty sequence declares nothing, and
eight agreeing Happy ticks declare Happy. -/
theorem stable_requires_full_window_witness :
    ((runUpdates DetectionState.start []).emojiA = none ∧
     (runUpdates DetectionState.start []).emojiB = none) ∧
    (runUpdates DetectionState.start
        (List.replicate 8 [⟨"Happy", 1⟩])).emojiA = some "Happy" :=
  ⟨stable_requires_full_window.1 [] (by decide),
   stable_requires_full_window.2 "Happy" 1 (by decide)⟩

/-- pause leaves the current combo untouched. -/
theorem pause_currentCombo (s : PlayerState) :
    (MusicPlayer.pause s).currentCombo = s.currentCombo := rfl

/-- play leaves the current combo untouched. -/
theorem play_currentCombo (s : PlayerState) :
    (MusicPlayer.play s).currentCombo = s.currentCombo := by
  unfold MusicPlayer.play
  split
  · rfl
  · split
    · rfl
    · split <;> rfl

/-- next leaves the current combo untouched. -/
theorem next_currentCombo (s : PlayerState) :
    (MusicPlayer.next s).currentCombo = s.currentCombo := by
  unfold MusicPlayer.next
  dsimp only
  split
  · rfl
  · split
    · rfl
    · split
      · rw [play_currentCombo]
      · rfl

/-- After any switchPlaylist call the requested key is the current
combo, whether or not the call was a no-op. -/
theorem switchPlaylist_currentCombo (table : List (String × List Track))
    (k : String) (s : PlayerState) :
    (MusicPlayer.switchPlaylist table k s).currentCombo = some k := by
  unfold MusicPlayer.switchPlaylist
  dsimp only
  split
  · next h => exact h.symm
  · split
    · rw [next_currentCombo, pause_currentCombo]
    · rw [next_currentCombo]

/-- switchPlaylist for the key that is already current returns the state
unchanged (the early-return guard). -/
theorem switchPlaylist_already_current (table : List (String × List Track))
    (k : String) (s : PlayerState) (h : s.currentCombo = some k) :
    MusicPlayer.switchPlaylist table k s = s := by
  unfold MusicPlayer.switchPlaylist
  rw [if_pos h.symm]

/-- C3: switchPlaylist is idempotent: calling it twice in a row with the
same combo key leaves the whole session — currentTrackIndex, isPlaying,
currentPlaylist, currentCombo, the audio src and the entire command
trace (so no stop, load or start command is re-issued) — exactly as
after the first call. -/
theorem switchPlaylist_idempotent :
    ∀ (table : List (String × List Track)) (k : String) (s : PlayerState),
      MusicPlayer.switchPlaylist table k
          (MusicPlayer.switchPlaylist table k s) =
        MusicPlayer.switchPlaylist table k s :=
  fun table k s =>
    switchPlaylist_already_current table k _
      (switchPlaylist_currentCombo table k s)

/-- next on a non-playing session whose index was reset: the session
stays non-playing, track zero is loaded when the playlist is non-empty
(the index stays -1 otherwise), and no audio play command is issued. -/
theorem next_no_autoplay (s : PlayerState) (hp : s.isPlaying = false)
    (hi : s.currentTrackIndex = -1) :
    (MusicPlayer.next s).isPlaying = false ∧
    (MusicPlayer.next s).currentTrackIndex =
      (if s.currentPlaylist = [] then (-1 : Int) else 0) ∧
    (Cmd.audioPlay ∈ (MusicPlayer.next s).cmds →
      Cmd.audioPlay ∈ s.cmds) := by
  rcases hpl : s.currentPlaylist with _ | ⟨t, ts⟩
  · unfold MusicPlayer.next
    simp [hpl, hp, hi]
  · have h0 : ((-1 : Int) + 1).tmod ((t :: ts).length : Int) = 0 := by
      norm_num
    unfold MusicPlayer.next
    simp [hpl, hi, hp, h0]

/-- C9: every switchPlaylist call with a key different from the current
combo leaves the session not playing — even when a track was playing at
the moment of the call — with the first track of the resolved playlist
loaded (index 0 when non-empty, -1 when empty) and without issuing any
audio play command, so playback resumes only via a later play call. -/
theorem switchPlaylist_never_autoplays (table : List (String × List Track))
    (k : String) (s : PlayerState) (h : some k ≠ s.currentCombo) :
    (MusicPlayer.switchPlaylist table k s).isPlaying = false ∧
    (MusicPlayer.switchPlaylist table k s).currentTrackIndex =
      (if lookupPlaylist table k = [] then (-1 : Int) else 0) ∧
    (Cmd.audioPlay ∈ (MusicPlayer.switchPlaylist table k s).cmds →
      Cmd.audioPlay ∈ s.cmds) := by
  unfold MusicPlayer.switchPlaylist
  rw [if_neg h]
  dsimp only
  split
  · next hsp =>
    have hx := next_no_autoplay
      (MusicPlayer.pause
        (⟨lookupPlaylist table k, -1, some k, s.isPlaying, s.audioSrc,
          s.cmds⟩ : PlayerState)) rfl rfl
    refine ⟨hx.1, hx.2.1, fun hm => ?_⟩
    have h2 := hx.2.2 hm
    simpa [MusicPlayer.pause] using h2
  · next hsp =>
    have hsp2 : s.isPlaying = false := by
      cases hb : s.isPlaying
      · rfl
      · exact absurd hb hsp
    have hx := next_no_autoplay
      (⟨lookupPlaylist table k, -1, some k, s.isPlaying, s.audioSrc,
        s.cmds⟩ : PlayerState) hsp2 rfl
    exact ⟨hx.1, hx.2.1, hx.2.2⟩

/-- Witness for C9: switching away from a playing session with an old
combo key ends not playing, with track zero of the resolved playlist
loaded and no play command issued. -/
theorem switchPlaylist_never_autoplays_witness :
    (MusicPlayer.switchPlaylist COMBO_PLAYLISTS "😄|—"
        (⟨[], -1, some "OLD", true, none, []⟩ : PlayerState)).isPlaying =
      false ∧
    (MusicPlayer.switchPlaylist COMBO_PLAYLISTS "😄|—"
        (⟨[], -1, some "OLD", true, none, []⟩ : PlayerState)).currentTrackIndex =
      (if lookupPlaylist COMBO_PLAYLISTS "😄|—" = [] then (-1 : Int)
       else 0) ∧
    (Cmd.audioPlay ∈
        (MusicPlayer.switchPlaylist COMBO_PLAYLISTS "😄|—"
            (⟨[], -1, some "OLD", true, none, []⟩ : PlayerState)).cmds →
      Cmd.audioPlay ∈
        (⟨[], -1, some "OLD", true, none, []⟩ : PlayerState).cmds) :=
  switchPlaylist_never_autoplays COMBO_PLAYLISTS "😄|—" _ (by decide)

/-- A character list without the separator splits into a single piece. -/
theorem splitChar_eq_single (c : Char) :
    ∀ l : List Char, l.contains c = false → splitChar c l = [l] := by
  intro l
  induction l with
  | nil => intro _; rfl
  | cons x xs ih =>
    intro h
    simp only [List.contains_cons, Bool.or_eq_false_iff,
      beq_eq_false_iff_ne] at h
    unfold splitChar
    rw [ih h.2, if_neg (fun hh => h.1 hh.symm)]

/-- The lookup policy in the words of the spec: try the exact key; if
absent and the key has two bar-separated components, try the swapped
key; if still unresolved, or the found list is empty, use the DEFAULT
playlist.  Stated for comparison with lookupPlaylist, which is the
embedding of the source. -/
def comboLookupPolicy (table : List (String × List Track)) (key : String) :
    List Track :=
  let dflt := (assoc table "DEFAULT").getD []
  match assoc table key with
  | some pl => if pl = [] then dflt else pl
  | none =>
    match jsSplit key '|' with
    | [p0, p1] =>
      match assoc table (p1 ++ "|" ++ p0) with
      | some pl => if pl = [] then dflt else pl
      | none => dflt
    | _ => dflt

/-- The lookup embedded from the source coincides with the policy as the
spec words it, for every table and key. -/
theorem lookupPlaylist_eq_policy :
    ∀ (table : List (String × List Track)) (key : String),
      lookupPlaylist table key = comboLookupPolicy table key := by
  intro table key
  unfold lookupPlaylist comboLookupPolicy
  cases hA : assoc table key with
  | some pl => simp [List.isEmpty_iff]
  | none =>
    cases hc : key.data.contains '|' with
    | false =>
      have hs : jsSplit key '|' = [key] := by
        unfold jsSplit
        rw [splitChar_eq_single _ _ hc]
        rfl
      simp [hc, hs]
    | true =>
      rcases hsp : jsSplit key '|' with _ | ⟨p0, rest⟩
      · simp [hc, hsp]
      · rcases rest with _ | ⟨p1, rest2⟩
        · simp [hc, hsp]
        · rcases rest2 with _ | ⟨p2, rest3⟩
          · cases hB : assoc table (p1 ++ "|" ++ p0) with
            | some pl2 => simp [hc, hsp, hB, List.isEmpty_iff]
            | none => simp [hc, hsp, hB]
          · simp [hc, hsp]

/-- C5: the playlist lookup of switchPlaylist follows the spec policy
(exact key, then the two-component swapped key, then DEFAULT when
unresolved or empty) for every table and key; in particular a table
holding only the A|B entry resolves the key B|A to that entry, a missing
key and an exact-but-empty entry both resolve to DEFAULT, and in the
shipped COMBO_PLAYLISTS the empty reversed emoji entry resolves to the
DEFAULT track. -/
theorem lookup_policy_correct :
    (∀ (table : List (String × List Track)) (key : String),
        lookupPlaylist table key = comboLookupPolicy table key) ∧
    lookupPlaylist
        [("A|B", [⟨"t", "a", "s"⟩]), ("DEFAULT", [⟨"d", "d", "d"⟩])] "B|A" =
      [⟨"t", "a", "s"⟩] ∧
    lookupPlaylist
        [("A|B", [⟨"t", "a", "s"⟩]), ("DEFAULT", [⟨"d", "d", "d"⟩])] "C|D" =
      [⟨"d", "d", "d"⟩] ∧
    lookupPlaylist [("A|B", []), ("DEFAULT", [⟨"d", "d", "d"⟩])] "A|B" =
      [⟨"d", "d", "d"⟩] ∧
    lookupPlaylist COMBO_PLAYLISTS "😈|😄" =
      [⟨"Default Track", "Default Artist", "./assets/audio/default.mp3"⟩] :=
  ⟨lookupPlaylist_eq_policy, by decide, by decide, by decide, by decide⟩

/-- playAudioForTarget never changes the mute flag. -/
theorem playAudio_audioMuted (i : Nat) (s : ArState) :
    (playAudioForTarget i s).audioMuted = s.audioMuted := by
  unfold playAudioForTarget
  split
  · rfl
  · split <;> rfl

/-- stopAudioForTarget never changes the mute flag. -/
theorem stopAudio_audioMuted (i : Nat) (s : ArState) :
    (stopAudioForTarget i s).audioMuted = s.audioMuted := by
  unfold stopAudioForTarget
  split <;> rfl

/-- While muted, playAudioForTarget is the early return: the state is
untouched. -/
theorem playAudio_muted (i : Nat) (s : ArState) (h : s.audioMuted = true) :
    playAudioForTarget i s = s := by
  unfold playAudioForTarget
  rw [if_pos h]

/-- The arbitration pass never changes the mute flag. -/
theorem updateAudioPlayback_audioMuted (s : ArState) :
    (updateAudioPlayback s).audioMuted = s.audioMuted := by
  unfold updateAudioPlayback
  split
  all_goals (try split)
  all_goals (try split)
  all_goals (try split)
  all_goals simp [playAudio_audioMuted, stopAudio_audioMuted]

/-- While muted with a silent channel, the arbitration pass keeps the
channel silent. -/
theorem updateAudioPlayback_muted_silent (s : ArState)
    (h : s.audioMuted = true) (h0 : s.currentAudioIndex = none) :
    (updateAudioPlayback s).currentAudioIndex = none := by
  unfold updateAudioPlayback
  split
  · split
    · next i hi => rw [h0] at hi; exact absurd hi (by simp)
    · exact h0
  · split
    · exact h0
    · rw [playAudio_muted _ _ h]; exact h0
  · split
    · split
      · split
        · exact h0
        · rw [playAudio_muted _ _ h]; exact h0
      · simp [playAudio_muted _ _ h, h0]
    · simp [playAudio_muted _ _ h, h0]

/-- The invariant every reachable state satisfies: while muted the
channel owner is null (muting stops the owner and no claim can happen
while muted). -/
def MutedSilent (s : ArState) : Prop :=
  s.audioMuted = true → s.currentAudioIndex = none

/-- The arbitration pass preserves the invariant. -/
theorem updateAudioPlayback_preserves (s : ArState) (h : MutedSilent s) :
    MutedSilent (updateAudioPlayback s) := by
  intro hm
  rw [updateAudioPlayback_audioMuted] at hm
  exact updateAudioPlayback_muted_silent s hm (h hm)

/-- Every event handler preserves the invariant. -/
theorem step_preserves (s : ArState) (e : Ev) (h : MutedSilent s) :
    MutedSilent (step s e) := by
  cases e with
  | found i =>
    show MutedSilent (onTargetFound i s)
    unfold onTargetFound
    split
    · exact h
    · refine updateAudioPlayback_preserves _ ?_
      exact fun hm => h hm
  | lost i =>
    show MutedSilent (onTargetLost i s)
    unfold onTargetLost
    split
    · refine updateAudioPlayback_preserves _ ?_
      exact fun hm => h hm
    · exact h
  | mute =>
    show MutedSilent (toggleMute s)
    unfold toggleMute
    dsimp only
    split
    · split
      · next i hi =>
        intro _
        unfold stopAudioForTarget
        rw [if_pos hi]
      · next hnone =>
        intro _
        exact hnone
    · next hn =>
      intro hm
      rw [updateAudioPlayback_audioMuted] at hm
      exact absurd hm hn

/-- The invariant holds along every run. -/
theorem run_preserves :
    ∀ (evs : List Ev) (s : ArState), MutedSilent s → MutedSilent (run s evs) := by
  intro evs
  induction evs with
  | nil => exact fun _ h => h
  | cons e es ih => exact fun s h => ih (step s e) (step_preserves s e h)

/-- A targetFound event in a muted, silent state does not move the
channel owner. -/
theorem onTargetFound_owner_muted (i : Nat) (s : ArState)
    (hm : s.audioMuted = true) (h0 : s.currentAudioIndex = none) :
    (onTargetFound i s).currentAudioIndex = s.currentAudioIndex := by
  unfold onTargetFound
  split
  · rfl
  · rw [h0]
    refine updateAudioPlayback_muted_silent _ ?_ ?_
    · exact hm
    · rfl

/-- C10: while audioMuted is true, playAudioForTarget returns before
modifying anything, and in every reachable muted state neither a
targetFound event nor an arbitration pass changes currentAudioIndex —
ownership claims and owner switches happen only while unmuted; yet the
fallback branch can still reassign lastFoundIndex while muted, as the
concrete muted trace shows (lastFoundIndex moves from 2 to 3 while the
owner stays null). -/
theorem muted_freezes_ownership :
    (∀ (i : Nat) (s : ArState), s.audioMuted = true →
        playAudioForTarget i s = s) ∧
    (∀ (evs : List Ev) (i : Nat),
        (run ArState.start evs).audioMuted = true →
        (onTargetFound i (run ArState.start evs)).currentAudioIndex =
            (run ArState.start evs).currentAudioIndex ∧
          (updateAudioPlayback (run ArState.start evs)).currentAudioIndex =
            (run ArState.start evs).currentAudioIndex) ∧
    ((run ArState.start [Ev.found 3, Ev.found 1, Ev.found 2]).audioMuted =
        true ∧
      (run ArState.start
          [Ev.found 3, Ev.found 1, Ev.found 2]).lastFoundIndex = some 2 ∧
      (run ArState.start
          [Ev.found 3, Ev.found 1, Ev.found 2, Ev.lost 2]).lastFoundIndex =
        some 3 ∧
      (run ArState.start
          [Ev.found 3, Ev.found 1, Ev.found 2, Ev.lost 2]).currentAudioIndex =
        none) := by
  refine ⟨playAudio_muted, ?_, by decide⟩
  intro evs i hm
  have h0 := run_preserves evs ArState.start (fun _ => rfl) hm
  refine ⟨onTargetFound_owner_muted i _ hm h0, ?_⟩
  rw [h0]
  exact updateAudioPlayback_muted_silent _ hm h0

/-- Witness for C10 at the initial (muted) state. -/
theorem muted_freezes_ownership_witness :
    playAudioForTarget 0 ArState.start = ArState.start ∧
    (onTargetFound 5 (run ArState.start [])).currentAudioIndex =
      (run ArState.start []).currentAudioIndex ∧
    (updateAudioPlayback (run ArState.start [])).currentAudioIndex =
      (run ArState.start []).currentAudioIndex :=
  ⟨muted_freezes_ownership.1 0 ArState.start (by decide),
   (muted_freezes_ownership.2.1 [] 5 (by decide)).1,
   (muted_freezes_ownership.2.1 [] 5 (by decide)).2⟩

end DeezerScanner
